import Mathlib

/-!
# Verification of the `logger` package (azizbek-qodirov/logger)

Shallow embedding of `logger.go`. Effects of the Go code are made explicit
inputs:

* `time.Now()` becomes a `DateTimeVal` value threaded in;
* `runtime.Caller(skip)` becomes a lookup in an explicit call-stack list,
  where index 0 is the frame of the function that invokes `runtime.Caller`;
* `os.Getwd`, `os.MkdirAll` and `os.OpenFile` become an environment record:
  `getwd` is the result Go's call would produce, and the two fallible
  filesystem calls are modelled by an error oracle (`none` = success)
  together with a deterministic effect on an explicit filesystem state;
* `os.Stdout` and files become sinks over an explicit `World` state.

`filepath.Join`, `filepath.Dir` and `filepath.Base` are host-platform
primitives (not part of this repository); they are modelled for clean
slash-separated paths, which is all the claims exercise.
-/

namespace LoggerPkg

/-- The four `logSyntax` bits, `DateTime = 1 << iota` (logger.go:17-22). -/
def DateTime : Nat := 1

/-- `Loglevel` bit (logger.go:19). -/
def Loglevel : Nat := 2

/-- `ShortFileName` bit (logger.go:20). -/
def ShortFileName : Nat := 4

/-- `LongFileName` bit (logger.go:21). -/
def LongFileName : Nat := 8

/-- `LogFileConfigs` (logger.go:29-34). `Include` is the `logSyntax` bitmask. -/
structure LogFileConfigs where
  Directory : String
  Filename : String
  Stdout : Bool
  Include : Nat
  deriving DecidableEq, Repr

/-- A wall-clock instant, standing for Go's `time.Time`. -/
structure DateTimeVal where
  year : Nat
  month : Nat
  day : Nat
  hour : Nat
  minute : Nat
  second : Nat
  deriving DecidableEq, Repr

/-- Zero-pad a number to two digits, as Go's `itoa(buf, n, 2)`. -/
def pad2 (n : Nat) : String :=
  if n < 10 then "0" ++ toString n else toString n

/-- Zero-pad a number to four digits, as Go's `itoa(buf, year, 4)`. -/
def pad4 (n : Nat) : String :=
  if n < 10 then "000" ++ toString n
  else if n < 100 then "00" ++ toString n
  else if n < 1000 then "0" ++ toString n
  else toString n

/-- `time.Now().Format("2006-01-02 15:04:05")` (logger.go:122). -/
def formatDateTimeDash (t : DateTimeVal) : String :=
  pad4 t.year ++ "-" ++ pad2 t.month ++ "-" ++ pad2 t.day ++ " " ++
    pad2 t.hour ++ ":" ++ pad2 t.minute ++ ":" ++ pad2 t.second

/-- One stack frame as reported by `runtime.Caller`: file path and line. -/
structure CallerFrame where
  file : String
  line : Nat
  deriving DecidableEq, Repr

/-- `runtime.Caller(skip)`: frame 0 is the function invoking `runtime.Caller`
itself; `none` models `ok == false`. -/
def runtimeCaller (stack : List CallerFrame) (skip : Nat) : Option CallerFrame :=
  stack.get? skip

/-- Split a character list at every `'/'`, keeping empty components (the
behaviour of splitting a path on the separator). -/
def splitOnSlash : List Char → List (List Char)
  | [] => [[]]
  | c :: rest =>
    match splitOnSlash rest with
    | [] => [[]]
    | cur :: parts =>
      if c = Char.ofNat 47 then [] :: cur :: parts else (c :: cur) :: parts

/-- The slash-separated components of a path. -/
def pathComponents (path : String) : List String :=
  (splitOnSlash path.data).map fun cs => String.mk cs

/-- `filepath.Base` for slash-separated paths: last non-empty component;
`"."` for the empty path, `"/"` when the path is all slashes. -/
def filepathBase (path : String) : String :=
  if path = "" then "."
  else
    match ((pathComponents path).filter (fun c => c ≠ "")).getLast? with
    | some c => c
    | none => "/"

/-- `filepath.Join` for clean slash-separated components: drop empty
components and interpose `"/"`. -/
def filepathJoin (elems : List String) : String :=
  String.intercalate "/" (elems.filter (fun c => c ≠ ""))

/-- `filepath.Dir` for clean slash-separated paths without trailing slash:
everything before the final component (`"."` when there is none). -/
def filepathDir (path : String) : String :=
  match (pathComponents path).dropLast with
  | [] => "."
  | parts => String.intercalate "/" parts

/-- `generatePrefix` (logger.go:117-142). `time.Now()` is the input `now`;
the stack visible to `runtime.Caller(2)` on line 132 is the input `stack`
(index 0 = `generatePrefix`'s own frame). -/
def generatePrefix (now : DateTimeVal) (stack : List CallerFrame)
    (syn : Nat) (level : String) : String :=
  let p0 := ""
  let p1 := if syn &&& DateTime ≠ 0 then p0 ++ formatDateTimeDash now ++ " " else p0
  let p2 := if syn &&& Loglevel ≠ 0 then p1 ++ level ++ " " else p1
  if syn &&& (ShortFileName ||| LongFileName) ≠ 0 then
    match runtimeCaller stack 2 with
    | some fr =>
      let file := if syn &&& ShortFileName ≠ 0 then filepathBase fr.file else fr.file
      p2 ++ file ++ ":" ++ toString fr.line ++ " "
    | none => p2
  else p2

/-- Flags of Go's standard `log` package (`log.Ldate = 1 << iota`, ...). -/
def Ldate : Nat := 1

/-- `log.Ltime`. -/
def Ltime : Nat := 2

/-- `log.Lmicroseconds` (never set by this repository). -/
def Lmicroseconds : Nat := 4

/-- `log.Llongfile`. -/
def Llongfile : Nat := 8

/-- `log.Lshortfile`. -/
def Lshortfile : Nat := 16

/-- `log.LUTC` (never set by this repository; the model's clock input already
stands for whichever zone Go would use). -/
def LUTC : Nat := 32

/-- `log.Lmsgprefix`: move the prefix from the front of the line to just
before the message. -/
def Lmsgprefix : Nat := 64

/-- `log.LstdFlags = Ldate | Ltime`. -/
def LstdFlags : Nat := Ldate ||| Ltime

/-- An output destination: `os.Stdout` or an opened log file at a path. -/
inductive Sink where
  | stdout : Sink
  | file : String → Sink
  deriving DecidableEq, Repr

/-- A `*log.Logger` as configured by `log.New(w, prefix, flag)`:
the multi-writer is the list of sinks it fans out to. -/
structure GoLogger where
  sinks : List Sink
  pref : String
  flag : Nat
  deriving DecidableEq, Repr

/-- The observable world: console output so far, file contents by path, and
the set of directories that exist. -/
structure World where
  console : String
  files : List (String × String)
  dirs : List String
  deriving DecidableEq, Repr

/-- Content of a file, `none` when the path does not exist. -/
def fsLookup : List (String × String) → String → Option String
  | [], _ => none
  | (q, c) :: rest, p => if q = p then some c else fsLookup rest p

/-- Append data to a file (creating it when absent, as a write through an
`O_APPEND|O_CREATE` handle behaves). -/
def fsAppend : List (String × String) → String → String → List (String × String)
  | [], p, d => [(p, d)]
  | (q, c) :: rest, p, d =>
    if q = p then (q, c ++ d) :: rest else (q, c) :: fsAppend rest p d

/-- `os.MkdirAll(d, 0755)`'s effect on success: the directory exists after. -/
def World.mkdirAll (w : World) (d : String) : World :=
  if d ∈ w.dirs then w else { w with dirs := d :: w.dirs }

/-- `os.OpenFile(p, O_APPEND|O_CREATE|O_WRONLY, 0644)`'s effect on success:
the file exists after, existing content untouched (no truncation). -/
def World.openFileAppendCreate (w : World) (p : String) : World :=
  if (fsLookup w.files p).isSome then w else { w with files := (p, "") :: w.files }

/-- Go's check `s[len(s)-1] == '\n'` (false on the empty string). -/
def hasTrailingNewline (s : String) : Bool :=
  match s.data.getLast? with
  | some c => c = Char.ofNat 10
  | none => false

/-- The newline character as a string. -/
def nl : String := String.mk [Char.ofNat 10]

/-- Go `log.Logger.Output(calldepth, s)` restricted to formatting: the line
that gets written. `now` is the time the write happens; `caller` is what
`runtime.Caller(calldepth)` reports at the log call (used only when a file
flag is set; Go substitutes `???:0` when the walk fails). `Lmicroseconds`
is never set by this repository and its fractional part is not modelled. -/
def GoLogger.output (l : GoLogger) (now : DateTimeVal)
    (caller : Option CallerFrame) (s : String) : String :=
  let b0 := if l.flag &&& Lmsgprefix = 0 then l.pref else ""
  let b1 :=
    if l.flag &&& Ldate ≠ 0 then
      b0 ++ pad4 now.year ++ "/" ++ pad2 now.month ++ "/" ++ pad2 now.day ++ " "
    else b0
  let b2 :=
    if l.flag &&& (Ltime ||| Lmicroseconds) ≠ 0 then
      b1 ++ pad2 now.hour ++ ":" ++ pad2 now.minute ++ ":" ++ pad2 now.second ++ " "
    else b1
  let b3 :=
    if l.flag &&& (Lshortfile ||| Llongfile) ≠ 0 then
      match caller with
      | some fr =>
        b2 ++ (if l.flag &&& Lshortfile ≠ 0 then filepathBase fr.file else fr.file) ++
          ":" ++ toString fr.line ++ ": "
      | none => b2 ++ "???:0: "
    else b2
  let b4 := if l.flag &&& Lmsgprefix ≠ 0 then b3 ++ l.pref else b3
  if hasTrailingNewline s then b4 ++ s else b4 ++ s ++ nl

/-- `log.Logger.Println(msg)` for one string operand:
`Output(2, fmt.Sprintln(msg))`. -/
def GoLogger.println (l : GoLogger) (now : DateTimeVal)
    (caller : Option CallerFrame) (msg : String) : String :=
  l.output now caller (msg ++ nl)

/-- Write one chunk of bytes to one sink. -/
def writeTo (w : World) (s : Sink) (data : String) : World :=
  match s with
  | .stdout => { w with console := w.console ++ data }
  | .file p => { w with files := fsAppend w.files p data }

/-- `io.MultiWriter(...)`: the same bytes go to every sink, in order. -/
def multiWrite (w : World) (sinks : List Sink) (data : String) : World :=
  sinks.foldl (fun acc s => writeTo acc s data) w

/-- A log call observed on the world: format the line, fan it out. -/
def logWrite (l : GoLogger) (now : DateTimeVal) (caller : Option CallerFrame)
    (msg : String) (w : World) : World :=
  multiWrite w l.sinks (l.println now caller msg)

/-- `Logger` (logger.go:42-48). -/
structure Logger where
  DEBUG : GoLogger
  INFO : GoLogger
  WARN : GoLogger
  ERROR : GoLogger
  TRACE : GoLogger
  deriving DecidableEq, Repr

/-- The five severity writers as a list. -/
def Logger.writers (l : Logger) : List GoLogger :=
  [l.DEBUG, l.INFO, l.WARN, l.ERROR, l.TRACE]

/-- The execution environment `NewLogger` runs in: what the effectful calls
would return. `callStack` is the stack above `NewLogger` (head = the frame
of `NewLogger`'s caller, i.e. the site of the `NewLogger` call).
`mkdirAllErr`/`openFileErr` give the error such a call would return
(`none` = success). -/
structure Env where
  getwd : Except String String
  now : DateTimeVal
  callStack : List CallerFrame
  mkdirAllErr : String → Option String
  openFileErr : String → Option String
  world : World

/-- The file of this repository as seen by `runtime.Caller` (its runtime
path is irrelevant: every property proved below only looks past it). -/
def loggerGoFile : String := "logger.go"

/-- The stack `runtime.Caller` sees inside `generatePrefix` when it is
invoked from `NewLogger` line `nlLine`: frame 0 is `generatePrefix` itself
(logger.go:132), frame 1 the `NewLogger` call site of `generatePrefix`,
frame 2 onward the stack above `NewLogger`. -/
def generatePrefixStack (nlLine : Nat) (callStack : List CallerFrame) :
    List CallerFrame :=
  ⟨loggerGoFile, 132⟩ :: ⟨loggerGoFile, nlLine⟩ :: callStack

/-- `NewLogger` (logger.go:54-111). Returns the logger together with the
world after construction's filesystem effects. The construction-time clock
`env.now` is what `time.Now()` yields during the five `generatePrefix`
calls. -/
def NewLogger (env : Env) (config : Option LogFileConfigs) :
    Except String (Logger × World) :=
  match env.getwd with
  | .error e => .error e
  | .ok wd =>
    match config with
    | some cfg =>
      if cfg.Filename = "" then .error "filename is required"
      else
        let path := filepathJoin [wd, cfg.Directory, cfg.Filename]
        match env.mkdirAllErr (filepathDir path) with
        | some e => .error e
        | none =>
          let w1 := env.world.mkdirAll (filepathDir path)
          match env.openFileErr path with
          | some e => .error e
          | none =>
            let w2 := w1.openFileAppendCreate path
            let mw : List Sink :=
              if cfg.Stdout then [.stdout, .file path] else [.file path]
            .ok
              ({ INFO := ⟨mw, generatePrefix env.now
                    (generatePrefixStack 95 env.callStack) cfg.Include "INFO", 0⟩
                 WARN := ⟨mw, generatePrefix env.now
                    (generatePrefixStack 96 env.callStack) cfg.Include "WARN", 0⟩
                 ERROR := ⟨mw, generatePrefix env.now
                    (generatePrefixStack 97 env.callStack) cfg.Include "ERROR", 0⟩
                 DEBUG := ⟨mw, generatePrefix env.now
                    (generatePrefixStack 98 env.callStack) cfg.Include "DEBUG", 0⟩
                 TRACE := ⟨mw, generatePrefix env.now
                    (generatePrefixStack 99 env.callStack) cfg.Include "TRACE", 0⟩ },
               w2)
    | none =>
      let flag := Lmsgprefix ||| LstdFlags ||| Lshortfile
      .ok
        ({ INFO := ⟨[.stdout], "INFO ", flag⟩
           WARN := ⟨[.stdout], "WARN ", flag⟩
           ERROR := ⟨[.stdout], "ERROR ", flag⟩
           DEBUG := ⟨[.stdout], "DEBUG ", flag⟩
           TRACE := ⟨[.stdout], "TRACE ", flag⟩ },
         env.world)

/-- The bitmask denoted by a set of the four format flags. -/
def syntaxMask (d lv sf lf : Bool) : Nat :=
  (if d then DateTime else 0) ||| (if lv then Loglevel else 0) |||
    (if sf then ShortFileName else 0) ||| (if lf then LongFileName else 0)

theorem nil_append_str (s : String) : "" ++ s = s := rfl

/-- Shape of `generatePrefix` when the caller walk succeeds, for every
combination of the four flags. -/
theorem generatePrefix_syntaxMask (d lv sf lf : Bool) (now : DateTimeVal)
    (stack : List CallerFrame) (level : String) (fr : CallerFrame)
    (hc : runtimeCaller stack 2 = some fr) :
    generatePrefix now stack (syntaxMask d lv sf lf) level =
      (if d then formatDateTimeDash now ++ " " else "") ++
        (if lv then level ++ " " else "") ++
        (if sf || lf then
          (if sf then filepathBase fr.file else fr.file) ++ ":" ++
            toString fr.line ++ " "
        else "") := by
  cases d <;> cases lv <;> cases sf <;> cases lf <;>
    simp +decide [generatePrefix, syntaxMask, DateTime, Loglevel, ShortFileName,
      LongFileName, hc, nil_append_str, String.append_assoc]

/-- Shape of `generatePrefix` when the caller walk fails: the file segment
is dropped, everything else stands. -/
theorem generatePrefix_syntaxMask_noCaller (d lv sf lf : Bool)
    (now : DateTimeVal) (stack : List CallerFrame) (level : String)
    (hc : runtimeCaller stack 2 = none) :
    generatePrefix now stack (syntaxMask d lv sf lf) level =
      (if d then formatDateTimeDash now ++ " " else "") ++
        (if lv then level ++ " " else "") := by
  cases d <;> cases lv <;> cases sf <;> cases lf <;>
    simp +decide [generatePrefix, syntaxMask, DateTime, Loglevel, ShortFileName,
      LongFileName, hc, nil_append_str, String.append_assoc]

/-- C1: for every combination of the four format flags and every level
label, when the caller walk yields a frame, `generatePrefix` returns
exactly the concatenation, in the fixed order timestamp-segment,
level-segment, file:line-segment, of the segments whose flags are set
(each followed by one space), omitting unset segments, and the empty
string when no flag is set. -/
theorem C1_generatePrefix_exact_concat (d lv sf lf : Bool)
    (now : DateTimeVal) (stack : List CallerFrame) (level : String)
    (fr : CallerFrame) (hc : runtimeCaller stack 2 = some fr) :
    generatePrefix now stack (syntaxMask d lv sf lf) level =
      (if d then formatDateTimeDash now ++ " " else "") ++
        (if lv then level ++ " " else "") ++
        (if sf || lf then
          (if sf then filepathBase fr.file else fr.file) ++ ":" ++
            toString fr.line ++ " "
        else "") :=
  generatePrefix_syntaxMask d lv sf lf now stack level fr hc

/-- Witness for C1 at a concrete flag set, level and stack. -/
theorem C1_witness :
    runtimeCaller [⟨"g.go", 132⟩, ⟨"logger.go", 95⟩, ⟨"/home/u/main.go", 10⟩] 2 =
        some ⟨"/home/u/main.go", 10⟩ ∧
      generatePrefix ⟨2024, 1, 2, 3, 4, 5⟩
          [⟨"g.go", 132⟩, ⟨"logger.go", 95⟩, ⟨"/home/u/main.go", 10⟩]
          (syntaxMask true true true false) "INFO" =
        (if true then formatDateTimeDash ⟨2024, 1, 2, 3, 4, 5⟩ ++ " " else "") ++
          (if true then "INFO" ++ " " else "") ++
          (if true || false then
            (if true then filepathBase "/home/u/main.go" else "/home/u/main.go") ++
              ":" ++ toString 10 ++ " "
          else "") :=
  ⟨rfl, C1_generatePrefix_exact_concat true true true false ⟨2024, 1, 2, 3, 4, 5⟩
    [⟨"g.go", 132⟩, ⟨"logger.go", 95⟩, ⟨"/home/u/main.go", 10⟩] "INFO"
    ⟨"/home/u/main.go", 10⟩ rfl⟩

/-- C4: for every flag set with both ShortFileName and LongFileName set and
every level, the file segment of `generatePrefix` uses the short (basename)
form of the caller's file, never the full path. -/
theorem C4_both_file_flags_short_wins (d lv : Bool) (now : DateTimeVal)
    (stack : List CallerFrame) (level : String) (fr : CallerFrame)
    (hc : runtimeCaller stack 2 = some fr) :
    generatePrefix now stack (syntaxMask d lv true true) level =
      (if d then formatDateTimeDash now ++ " " else "") ++
        (if lv then level ++ " " else "") ++
        (filepathBase fr.file ++ ":" ++ toString fr.line ++ " ") := by
  have h := generatePrefix_syntaxMask d lv true true now stack level fr hc
  simpa using h

/-- Witness for C4: a long path is cut down to its basename even though
LongFileName is also set. -/
theorem C4_witness :
    runtimeCaller [⟨"g.go", 132⟩, ⟨"logger.go", 95⟩, ⟨"/home/u/app/main.go", 42⟩] 2 =
        some ⟨"/home/u/app/main.go", 42⟩ ∧
      generatePrefix ⟨2024, 1, 2, 3, 4, 5⟩
          [⟨"g.go", 132⟩, ⟨"logger.go", 95⟩, ⟨"/home/u/app/main.go", 42⟩]
          (syntaxMask false false true true) "WARN" =
        (if false then formatDateTimeDash ⟨2024, 1, 2, 3, 4, 5⟩ ++ " " else "") ++
          (if false then "WARN" ++ " " else "") ++
          (filepathBase "/home/u/app/main.go" ++ ":" ++ toString 42 ++ " ") :=
  ⟨rfl, C4_both_file_flags_short_wins false false ⟨2024, 1, 2, 3, 4, 5⟩
    [⟨"g.go", 132⟩, ⟨"logger.go", 95⟩, ⟨"/home/u/app/main.go", 42⟩] "WARN"
    ⟨"/home/u/app/main.go", 42⟩ rfl⟩

/-- C8: when a file-name flag is set but the caller walk reports no valid
frame, the file:line segment is silently omitted (the function still
returns, no error) and the other requested segments are produced. -/
theorem C8_caller_failure_omits_file_segment (d lv sf lf : Bool)
    (now : DateTimeVal) (stack : List CallerFrame) (level : String)
    (hset : sf || lf = true) (hc : runtimeCaller stack 2 = none) :
    generatePrefix now stack (syntaxMask d lv sf lf) level =
      (if d then formatDateTimeDash now ++ " " else "") ++
        (if lv then level ++ " " else "") :=
  generatePrefix_syntaxMask_noCaller d lv sf lf now stack level hc

/-- Witness for C8: an empty stack (no recoverable frame) with both the
timestamp and level flags set alongside ShortFileName. -/
theorem C8_witness :
    (true || false) = true ∧ runtimeCaller [] 2 = none ∧
      generatePrefix ⟨2024, 1, 2, 3, 4, 5⟩ [] (syntaxMask true true true false)
          "ERROR" =
        (if true then formatDateTimeDash ⟨2024, 1, 2, 3, 4, 5⟩ ++ " " else "") ++
          (if true then "ERROR" ++ " " else "") :=
  ⟨rfl, rfl, C8_caller_failure_omits_file_segment true true true false
    ⟨2024, 1, 2, 3, 4, 5⟩ [] "ERROR" rfl rfl⟩

/-- An environment in which `os.Getwd` fails (e.g. the working directory
was removed); everything else would succeed. -/
def envGetwdFailC2 : Env :=
  { getwd := .error "getwd: no such file or directory"
    now := ⟨2024, 1, 2, 3, 4, 5⟩
    callStack := []
    mkdirAllErr := fun _ => none
    openFileErr := fun _ => none
    world := ⟨"", [], []⟩ }

/-- C2 counterexample: with a nil config, construction can still fail —
`os.Getwd` is called (logger.go:58) before the nil-config branch, and its
error is returned. -/
theorem C2_counterexample :
    NewLogger envGetwdFailC2 none = .error "getwd: no such file or directory" :=
  rfl

/-- C2 amended: with a nil config, provided the working-directory lookup
succeeds, construction never fails and the five severity writers write to
the console only, with no file created (the world is untouched). -/
theorem C2_amended_nil_config_console_only (env : Env) (wd : String)
    (h : env.getwd = .ok wd) :
    ∃ l : Logger, NewLogger env none = .ok (l, env.world) ∧
      ∀ gl ∈ l.writers, gl.sinks = [Sink.stdout] := by
  refine ⟨⟨⟨[.stdout], "DEBUG ", Lmsgprefix ||| LstdFlags ||| Lshortfile⟩,
    ⟨[.stdout], "INFO ", Lmsgprefix ||| LstdFlags ||| Lshortfile⟩,
    ⟨[.stdout], "WARN ", Lmsgprefix ||| LstdFlags ||| Lshortfile⟩,
    ⟨[.stdout], "ERROR ", Lmsgprefix ||| LstdFlags ||| Lshortfile⟩,
    ⟨[.stdout], "TRACE ", Lmsgprefix ||| LstdFlags ||| Lshortfile⟩⟩, ?_, ?_⟩
  · unfold NewLogger
    rw [h]
  · intro gl hgl
    simp only [Logger.writers, List.mem_cons, List.not_mem_nil, or_false] at hgl
    rcases hgl with rfl | rfl | rfl | rfl | rfl <;> rfl

/-- An environment with a working directory, an empty world, and no
filesystem failures. -/
def envOkC2 : Env :=
  { getwd := .ok "/srv"
    now := ⟨2024, 1, 2, 3, 4, 5⟩
    callStack := [⟨"/srv/main.go", 3⟩]
    mkdirAllErr := fun _ => none
    openFileErr := fun _ => none
    world := ⟨"", [], []⟩ }

/-- Witness for the amended C2 at a concrete environment. -/
theorem C2_amended_witness :
    envOkC2.getwd = .ok "/srv" ∧
      ∃ l : Logger, NewLogger envOkC2 none = .ok (l, envOkC2.world) ∧
        ∀ gl ∈ l.writers, gl.sinks = [Sink.stdout] :=
  ⟨rfl, C2_amended_nil_config_console_only envOkC2 "/srv" rfl⟩

/-- An environment in which `os.Getwd` fails, for the empty-filename call. -/
def envGetwdFailC5 : Env :=
  { getwd := .error "getwd: permission denied"
    now := ⟨2024, 1, 2, 3, 4, 5⟩
    callStack := []
    mkdirAllErr := fun _ => none
    openFileErr := fun _ => none
    world := ⟨"", [], []⟩ }

/-- C5 counterexample: with a non-nil config whose Filename is empty, the
failure need not be the "filename is required" ConfigError — `os.Getwd`
runs first (logger.go:58) and its error is returned instead. -/
theorem C5_counterexample :
    NewLogger envGetwdFailC5 (some ⟨"", "", false, 0⟩) =
        .error "getwd: permission denied" ∧
      "getwd: permission denied" ≠ "filename is required" :=
  ⟨rfl, by decide⟩

/-- C5 amended: with a non-nil config whose Filename is empty, provided the
working-directory lookup succeeds, `NewLogger` fails with the
"filename is required" ConfigError and returns no Logger. -/
theorem C5_amended_empty_filename_config_error (env : Env) (wd : String)
    (cfg : LogFileConfigs) (h : env.getwd = .ok wd) (hf : cfg.Filename = "") :
    NewLogger env (some cfg) = .error "filename is required" := by
  unfold NewLogger
  rw [h]
  simp [hf]

/-- Witness for the amended C5 at a concrete environment and config. -/
theorem C5_amended_witness :
    envOkC2.getwd = .ok "/srv" ∧
      (LogFileConfigs.mk "logs" "" true 3).Filename = "" ∧
      NewLogger envOkC2 (some (LogFileConfigs.mk "logs" "" true 3)) =
        .error "filename is required" :=
  ⟨rfl, rfl, C5_amended_empty_filename_config_error envOkC2 "/srv"
    (LogFileConfigs.mk "logs" "" true 3) rfl rfl⟩

/-- The resolved log-file path (logger.go:73). -/
def logPath (wd : String) (cfg : LogFileConfigs) : String :=
  filepathJoin [wd, cfg.Directory, cfg.Filename]

/-- The sinks of the fan-out writer (logger.go:88-92). -/
def sinksOf (wd : String) (cfg : LogFileConfigs) : List Sink :=
  if cfg.Stdout then [.stdout, .file (logPath wd cfg)] else [.file (logPath wd cfg)]

/-- One file-backed severity writer as wired on logger.go:95-99. -/
def fileLogger (env : Env) (wd : String) (cfg : LogFileConfigs)
    (nlLine : Nat) (level : String) : GoLogger :=
  ⟨sinksOf wd cfg,
    generatePrefix env.now (generatePrefixStack nlLine env.callStack)
      cfg.Include level, 0⟩

/-- The logger a successful file-backed construction produces. -/
def builtLogger (env : Env) (wd : String) (cfg : LogFileConfigs) : Logger :=
  ⟨fileLogger env wd cfg 98 "DEBUG", fileLogger env wd cfg 95 "INFO",
    fileLogger env wd cfg 96 "WARN", fileLogger env wd cfg 97 "ERROR",
    fileLogger env wd cfg 99 "TRACE"⟩

/-- The world after a successful file-backed construction. -/
def builtWorld (env : Env) (wd : String) (cfg : LogFileConfigs) : World :=
  (env.world.mkdirAll (filepathDir (logPath wd cfg))).openFileAppendCreate
    (logPath wd cfg)

/-- Characterisation of a successful file-backed construction. -/
theorem NewLogger_some_ok (env : Env) (wd : String) (cfg : LogFileConfigs)
    (h : env.getwd = .ok wd) (hf : ¬ cfg.Filename = "")
    (hmk : env.mkdirAllErr (filepathDir (logPath wd cfg)) = none)
    (hop : env.openFileErr (logPath wd cfg) = none) :
    NewLogger env (some cfg) = .ok (builtLogger env wd cfg, builtWorld env wd cfg) := by
  simp only [NewLogger, h, if_neg hf]
  unfold logPath at hmk hop
  simp only [hmk, hop]
  rcases hcs : cfg.Stdout <;>
    simp [builtLogger, builtWorld, fileLogger, sinksOf, logPath, hcs]

/-- Lines of a flag-0 writer: exactly the stored prefix, then the message,
then the newline `Println` appended; time and caller of the log call are
ignored. -/
theorem println_flag0 (gl : GoLogger) (hflag : gl.flag = 0)
    (t : DateTimeVal) (c : Option CallerFrame) (msg : String) :
    gl.println t c msg = gl.pref ++ (msg ++ nl) := by
  have hnl : hasTrailingNewline (msg ++ nl) = true := by
    rcases msg with ⟨cs⟩
    have hd : (String.mk cs ++ nl).data = cs ++ [Char.ofNat 10] := rfl
    unfold hasTrailingNewline
    rw [hd, List.getLast?_concat]
    simp
  unfold GoLogger.println GoLogger.output
  rw [hflag, hnl]
  simp +decide [ Lmsgprefix, Ldate, Ltime, Lmicroseconds, Lshortfile, Llongfile]

/-- C3: for a logger built from a non-nil config, each severity writer's
prefix is the one `generatePrefix` computed at construction time with the
construction-time clock, and every line the writer ever produces carries
exactly that prefix — the log call's own time and caller never enter. -/
theorem C3_prefix_computed_once (env : Env) (wd : String)
    (cfg : LogFileConfigs) (l : Logger) (w' : World)
    (h : env.getwd = .ok wd) (hf : ¬ cfg.Filename = "")
    (hmk : env.mkdirAllErr (filepathDir (logPath wd cfg)) = none)
    (hop : env.openFileErr (logPath wd cfg) = none)
    (hL : NewLogger env (some cfg) = .ok (l, w')) :
    (l.INFO.pref = generatePrefix env.now (generatePrefixStack 95 env.callStack)
        cfg.Include "INFO" ∧
      l.WARN.pref = generatePrefix env.now (generatePrefixStack 96 env.callStack)
        cfg.Include "WARN" ∧
      l.ERROR.pref = generatePrefix env.now (generatePrefixStack 97 env.callStack)
        cfg.Include "ERROR" ∧
      l.DEBUG.pref = generatePrefix env.now (generatePrefixStack 98 env.callStack)
        cfg.Include "DEBUG" ∧
      l.TRACE.pref = generatePrefix env.now (generatePrefixStack 99 env.callStack)
        cfg.Include "TRACE") ∧
    ∀ gl ∈ l.writers, ∀ (t t' : DateTimeVal) (c c' : Option CallerFrame)
      (msg : String),
      gl.println t c msg = gl.println t' c' msg ∧
      gl.println t c msg = gl.pref ++ (msg ++ nl) := by
  have hbuilt := NewLogger_some_ok env wd cfg h hf hmk hop
  rw [hL] at hbuilt
  injection hbuilt with h1
  obtain ⟨hl, -⟩ := Prod.mk.inj h1
  subst hl
  constructor
  · exact ⟨rfl, rfl, rfl, rfl, rfl⟩
  · intro gl hgl t t' c c' msg
    have hfl : gl.flag = 0 := by
      simp only [Logger.writers, builtLogger, List.mem_cons, List.not_mem_nil,
        or_false] at hgl
      rcases hgl with rfl | rfl | rfl | rfl | rfl <;> rfl
    exact ⟨(println_flag0 gl hfl t c msg).trans
      (println_flag0 gl hfl t' c' msg).symm, println_flag0 gl hfl t c msg⟩

/-- A concrete successful environment for the file-backed construction
witnesses: wd `/srv`, clock 2024-01-02 03:04:05, caller `/srv/main.go:3`,
no filesystem failures, empty world. -/
def envW3 : Env :=
  { getwd := .ok "/srv"
    now := ⟨2024, 1, 2, 3, 4, 5⟩
    callStack := [⟨"/srv/main.go", 3⟩]
    mkdirAllErr := fun _ => none
    openFileErr := fun _ => none
    world := ⟨"", [], []⟩ }

/-- A concrete config: file `app.log` in the working directory, no stdout,
timestamp-only prefix. -/
def cfgW3 : LogFileConfigs := ⟨"", "app.log", false, 1⟩

/-- Witness for C3 at a concrete environment and config. -/
theorem C3_witness :
    envW3.getwd = .ok "/srv" ∧ ¬ cfgW3.Filename = "" ∧
      envW3.mkdirAllErr (filepathDir (logPath "/srv" cfgW3)) = none ∧
      envW3.openFileErr (logPath "/srv" cfgW3) = none ∧
      NewLogger envW3 (some cfgW3) =
        .ok (builtLogger envW3 "/srv" cfgW3, builtWorld envW3 "/srv" cfgW3) ∧
      (((builtLogger envW3 "/srv" cfgW3).INFO.pref =
          generatePrefix envW3.now (generatePrefixStack 95 envW3.callStack)
            cfgW3.Include "INFO" ∧
        (builtLogger envW3 "/srv" cfgW3).WARN.pref =
          generatePrefix envW3.now (generatePrefixStack 96 envW3.callStack)
            cfgW3.Include "WARN" ∧
        (builtLogger envW3 "/srv" cfgW3).ERROR.pref =
          generatePrefix envW3.now (generatePrefixStack 97 envW3.callStack)
            cfgW3.Include "ERROR" ∧
        (builtLogger envW3 "/srv" cfgW3).DEBUG.pref =
          generatePrefix envW3.now (generatePrefixStack 98 envW3.callStack)
            cfgW3.Include "DEBUG" ∧
        (builtLogger envW3 "/srv" cfgW3).TRACE.pref =
          generatePrefix envW3.now (generatePrefixStack 99 envW3.callStack)
            cfgW3.Include "TRACE") ∧
      ∀ gl ∈ (builtLogger envW3 "/srv" cfgW3).writers,
        ∀ (t t' : DateTimeVal) (c c' : Option CallerFrame) (msg : String),
        gl.println t c msg = gl.println t' c' msg ∧
        gl.println t c msg = gl.pref ++ (msg ++ nl)) :=
  ⟨rfl, by decide, rfl, rfl, rfl,
    C3_prefix_computed_once envW3 "/srv" cfgW3 (builtLogger envW3 "/srv" cfgW3)
      (builtWorld envW3 "/srv" cfgW3) rfl (by decide) rfl rfl rfl⟩

theorem mkdirAll_mem_dirs (w : World) (d : String) : d ∈ (w.mkdirAll d).dirs := by
  unfold World.mkdirAll
  split
  · assumption
  · exact List.mem_cons_self _ _

theorem mkdirAll_files (w : World) (d : String) : (w.mkdirAll d).files = w.files := by
  unfold World.mkdirAll
  split <;> rfl

theorem openFileAppendCreate_dirs (w : World) (p : String) :
    (w.openFileAppendCreate p).dirs = w.dirs := by
  unfold World.openFileAppendCreate
  split <;> rfl

/-- Opening append-or-create leaves existing content in place and creates
an empty file otherwise. -/
theorem openFileAppendCreate_lookup (w : World) (p : String) :
    fsLookup (w.openFileAppendCreate p).files p =
      some ((fsLookup w.files p).getD "") := by
  unfold World.openFileAppendCreate
  rcases hx : fsLookup w.files p with _ | c <;> simp [hx, fsLookup]

/-- C6: with a non-empty Filename (and the effectful calls succeeding), the
target path is the join of the working directory, `Directory` and
`Filename`; the containing directory exists afterwards; and the target file
exists with its preexisting content preserved unchanged (empty only when it
did not exist) — append-or-create, never truncation. -/
theorem C6_join_mkdir_append_create (env : Env) (wd : String)
    (cfg : LogFileConfigs) (h : env.getwd = .ok wd)
    (hf : ¬ cfg.Filename = "")
    (hmk : env.mkdirAllErr (filepathDir (logPath wd cfg)) = none)
    (hop : env.openFileErr (logPath wd cfg) = none) :
    ∃ l w', NewLogger env (some cfg) = .ok (l, w') ∧
      logPath wd cfg = filepathJoin [wd, cfg.Directory, cfg.Filename] ∧
      filepathDir (logPath wd cfg) ∈ w'.dirs ∧
      fsLookup w'.files (logPath wd cfg) =
        some ((fsLookup env.world.files (logPath wd cfg)).getD "") := by
  refine ⟨_, _, NewLogger_some_ok env wd cfg h hf hmk hop, rfl, ?_, ?_⟩
  · unfold builtWorld
    rw [openFileAppendCreate_dirs]
    exact mkdirAll_mem_dirs _ _
  · unfold builtWorld
    rw [openFileAppendCreate_lookup, mkdirAll_files]

/-- A concrete environment where the target file already holds content. -/
def envW6 : Env :=
  { getwd := .ok "/srv"
    now := ⟨2024, 1, 2, 3, 4, 5⟩
    callStack := [⟨"/srv/main.go", 3⟩]
    mkdirAllErr := fun _ => none
    openFileErr := fun _ => none
    world := ⟨"", [("/srv/logs/app.log", "old line\n")], ["/srv"]⟩ }

/-- A concrete config targeting `logs/app.log` with stdout enabled. -/
def cfgW6 : LogFileConfigs := ⟨"logs", "app.log", true, 3⟩

/-- Witness for C6: the old content `"old line\n"` survives construction. -/
theorem C6_witness :
    envW6.getwd = .ok "/srv" ∧ ¬ cfgW6.Filename = "" ∧
      envW6.mkdirAllErr (filepathDir (logPath "/srv" cfgW6)) = none ∧
      envW6.openFileErr (logPath "/srv" cfgW6) = none ∧
      ∃ l w', NewLogger envW6 (some cfgW6) = .ok (l, w') ∧
        logPath "/srv" cfgW6 = filepathJoin ["/srv", cfgW6.Directory, cfgW6.Filename] ∧
        filepathDir (logPath "/srv" cfgW6) ∈ w'.dirs ∧
        fsLookup w'.files (logPath "/srv" cfgW6) =
          some ((fsLookup envW6.world.files (logPath "/srv" cfgW6)).getD "") :=
  ⟨rfl, by decide, rfl, rfl,
    C6_join_mkdir_append_create envW6 "/srv" cfgW6 rfl (by decide) rfl rfl⟩

/-- C7: for a successfully constructed file-backed logger, a single log
call through any severity writer appends the identical byte string to the
console and to the log file when `Stdout` is true, and appends it to the
file only — the console is untouched — when `Stdout` is false. -/
theorem C7_fanout_stdout_toggle (env : Env) (wd : String)
    (cfg : LogFileConfigs) (l : Logger) (w' : World)
    (h : env.getwd = .ok wd) (hf : ¬ cfg.Filename = "")
    (hmk : env.mkdirAllErr (filepathDir (logPath wd cfg)) = none)
    (hop : env.openFileErr (logPath wd cfg) = none)
    (hL : NewLogger env (some cfg) = .ok (l, w')) :
    ∀ gl ∈ l.writers, ∀ (t : DateTimeVal) (c : Option CallerFrame)
      (msg : String) (w : World),
      (cfg.Stdout = true →
        (logWrite gl t c msg w).console = w.console ++ gl.println t c msg ∧
        (logWrite gl t c msg w).files =
          fsAppend w.files (logPath wd cfg) (gl.println t c msg)) ∧
      (cfg.Stdout = false →
        (logWrite gl t c msg w).console = w.console ∧
        (logWrite gl t c msg w).files =
          fsAppend w.files (logPath wd cfg) (gl.println t c msg)) := by
  have hbuilt := NewLogger_some_ok env wd cfg h hf hmk hop
  rw [hL] at hbuilt
  injection hbuilt with h1
  obtain ⟨hl, -⟩ := Prod.mk.inj h1
  subst hl
  intro gl hgl t c msg w
  have hs : gl.sinks = sinksOf wd cfg := by
    simp only [Logger.writers, builtLogger, List.mem_cons, List.not_mem_nil,
      or_false] at hgl
    rcases hgl with rfl | rfl | rfl | rfl | rfl <;> rfl
  constructor
  · intro hT
    unfold sinksOf at hs
    simp only [hT, if_true] at hs
    unfold logWrite multiWrite
    rw [hs]
    exact ⟨rfl, rfl⟩
  · intro hF
    unfold sinksOf at hs
    simp only [hF, Bool.false_eq_true, if_false] at hs
    unfold logWrite multiWrite
    rw [hs]
    exact ⟨rfl, rfl⟩

/-- Witness for C7 at the concrete envW3/cfgW3 construction (whose
`Stdout` is false, exercising the file-only branch). -/
theorem C7_witness :
    envW3.getwd = .ok "/srv" ∧ ¬ cfgW3.Filename = "" ∧
      envW3.mkdirAllErr (filepathDir (logPath "/srv" cfgW3)) = none ∧
      envW3.openFileErr (logPath "/srv" cfgW3) = none ∧
      NewLogger envW3 (some cfgW3) =
        .ok (builtLogger envW3 "/srv" cfgW3, builtWorld envW3 "/srv" cfgW3) ∧
      ∀ gl ∈ (builtLogger envW3 "/srv" cfgW3).writers,
        ∀ (t : DateTimeVal) (c : Option CallerFrame) (msg : String) (w : World),
        (cfgW3.Stdout = true →
          (logWrite gl t c msg w).console = w.console ++ gl.println t c msg ∧
          (logWrite gl t c msg w).files =
            fsAppend w.files (logPath "/srv" cfgW3) (gl.println t c msg)) ∧
        (cfgW3.Stdout = false →
          (logWrite gl t c msg w).console = w.console ∧
          (logWrite gl t c msg w).files =
            fsAppend w.files (logPath "/srv" cfgW3) (gl.println t c msg)) :=
  ⟨rfl, by decide, rfl, rfl, rfl,
    C7_fanout_stdout_toggle envW3 "/srv" cfgW3 (builtLogger envW3 "/srv" cfgW3)
      (builtWorld envW3 "/srv" cfgW3) rfl (by decide) rfl rfl rfl⟩

/-- Shape of `generatePrefix` when a file flag is set and the walk
succeeds: whatever the other flags contribute, followed by the file:line
segment of the reported frame. -/
theorem generatePrefix_file_suffix (now : DateTimeVal)
    (stack : List CallerFrame) (syn : Nat) (level : String) (fr : CallerFrame)
    (hc : runtimeCaller stack 2 = some fr)
    (hflag : syn &&& (ShortFileName ||| LongFileName) ≠ 0) :
    ∃ pre, generatePrefix now stack syn level =
      pre ++ ((if syn &&& ShortFileName ≠ 0 then filepathBase fr.file else fr.file) ++
        ":" ++ toString fr.line ++ " ") := by
  by_cases hd : syn &&& DateTime = 0 <;> by_cases hl : syn &&& Loglevel = 0
  · exact ⟨"", by
      simp [generatePrefix, hd, hl, hflag, hc, nil_append_str, String.append_assoc]⟩
  · exact ⟨level ++ " ", by
      simp [generatePrefix, hd, hl, hflag, hc, nil_append_str, String.append_assoc]⟩
  · exact ⟨formatDateTimeDash now ++ " ", by
      simp [generatePrefix, hd, hl, hflag, hc, nil_append_str, String.append_assoc]⟩
  · exact ⟨formatDateTimeDash now ++ " " ++ (level ++ " "), by
      simp [generatePrefix, hd, hl, hflag, hc, nil_append_str, String.append_assoc]⟩

/-- C10: when a file-name flag is set in a non-nil config, the stack depth
of 2 used by `generatePrefix` at construction time reaches exactly the
frame above `NewLogger` — the call site of `NewLogger` itself; every
severity writer's stored prefix ends in that frame's file:line segment,
and every line the writer ever emits carries the stored prefix unchanged,
ignoring the caller of the later log call. -/
theorem C10_file_segment_names_NewLogger_call_site (env : Env) (wd : String)
    (cfg : LogFileConfigs) (l : Logger) (w' : World) (fr : CallerFrame)
    (h : env.getwd = .ok wd) (hf : ¬ cfg.Filename = "")
    (hmk : env.mkdirAllErr (filepathDir (logPath wd cfg)) = none)
    (hop : env.openFileErr (logPath wd cfg) = none)
    (hL : NewLogger env (some cfg) = .ok (l, w'))
    (hflag : cfg.Include &&& (ShortFileName ||| LongFileName) ≠ 0)
    (hs : env.callStack.head? = some fr) :
    (∀ nlLine, runtimeCaller (generatePrefixStack nlLine env.callStack) 2 = some fr) ∧
    ∀ gl ∈ l.writers,
      (∃ pre, gl.pref =
        pre ++ ((if cfg.Include &&& ShortFileName ≠ 0 then filepathBase fr.file
          else fr.file) ++ ":" ++ toString fr.line ++ " ")) ∧
      ∀ (t : DateTimeVal) (c c' : Option CallerFrame) (msg : String),
        gl.println t c msg = gl.println t c' msg ∧
        gl.println t c msg = gl.pref ++ (msg ++ nl) := by
  have hrc : ∀ nlLine,
      runtimeCaller (generatePrefixStack nlLine env.callStack) 2 = some fr := by
    intro nlLine
    rcases hcs : env.callStack with _ | ⟨f0, rest⟩
    · rw [hcs] at hs
      simp at hs
    · rw [hcs] at hs
      simp only [List.head?_cons, Option.some.injEq] at hs
      subst hs
      rfl
  have hbuilt := NewLogger_some_ok env wd cfg h hf hmk hop
  rw [hL] at hbuilt
  injection hbuilt with h1
  obtain ⟨hl, -⟩ := Prod.mk.inj h1
  subst hl
  refine ⟨hrc, ?_⟩
  intro gl hgl
  simp only [Logger.writers, builtLogger, List.mem_cons, List.not_mem_nil,
    or_false] at hgl
  have hline : ∀ (gl' : GoLogger), gl'.flag = 0 →
      ∀ (t : DateTimeVal) (c c' : Option CallerFrame) (msg : String),
      gl'.println t c msg = gl'.println t c' msg ∧
      gl'.println t c msg = gl'.pref ++ (msg ++ nl) := fun gl' hfl t c c' msg =>
    ⟨(println_flag0 gl' hfl t c msg).trans (println_flag0 gl' hfl t c' msg).symm,
      println_flag0 gl' hfl t c msg⟩
  rcases hgl with rfl | rfl | rfl | rfl | rfl <;>
    exact ⟨generatePrefix_file_suffix env.now _ cfg.Include _ fr (hrc _) hflag,
      hline _ rfl⟩

/-- A concrete environment/config pair with ShortFileName set, for the C10
witness. -/
def envW10 : Env :=
  { getwd := .ok "/srv"
    now := ⟨2024, 1, 2, 3, 4, 5⟩
    callStack := [⟨"/srv/cmd/main.go", 17⟩, ⟨"/usr/lib/go/runtime.go", 250⟩]
    mkdirAllErr := fun _ => none
    openFileErr := fun _ => none
    world := ⟨"", [], []⟩ }

/-- Config with `Include := ShortFileName ||| LongFileName ||| Loglevel`. -/
def cfgW10 : LogFileConfigs := ⟨"", "app.log", false, 14⟩

/-- Witness for C10: the file segment of every prefix names
`/srv/cmd/main.go:17`, the call site of `NewLogger`. -/
theorem C10_witness :
    envW10.getwd = .ok "/srv" ∧ ¬ cfgW10.Filename = "" ∧
      envW10.mkdirAllErr (filepathDir (logPath "/srv" cfgW10)) = none ∧
      envW10.openFileErr (logPath "/srv" cfgW10) = none ∧
      NewLogger envW10 (some cfgW10) =
        .ok (builtLogger envW10 "/srv" cfgW10, builtWorld envW10 "/srv" cfgW10) ∧
      cfgW10.Include &&& (ShortFileName ||| LongFileName) ≠ 0 ∧
      envW10.callStack.head? = some ⟨"/srv/cmd/main.go", 17⟩ ∧
      ((∀ nlLine, runtimeCaller (generatePrefixStack nlLine envW10.callStack) 2 =
          some ⟨"/srv/cmd/main.go", 17⟩) ∧
        ∀ gl ∈ (builtLogger envW10 "/srv" cfgW10).writers,
          (∃ pre, gl.pref =
            pre ++ ((if cfgW10.Include &&& ShortFileName ≠ 0 then
              filepathBase "/srv/cmd/main.go" else "/srv/cmd/main.go") ++ ":" ++
              toString 17 ++ " ")) ∧
          ∀ (t : DateTimeVal) (c c' : Option CallerFrame) (msg : String),
            gl.println t c msg = gl.println t c' msg ∧
            gl.println t c msg = gl.pref ++ (msg ++ nl)) :=
  ⟨rfl, by decide, rfl, rfl, rfl, by decide, rfl,
    C10_file_segment_names_NewLogger_call_site envW10 "/srv" cfgW10
      (builtLogger envW10 "/srv" cfgW10) (builtWorld envW10 "/srv" cfgW10)
      ⟨"/srv/cmd/main.go", 17⟩ rfl (by decide) rfl rfl rfl (by decide) rfl⟩

/-- The flag value of the nil-config fallback writers (logger.go:102). -/
def defaultFlag : Nat := Lmsgprefix ||| LstdFlags ||| Lshortfile

/-- The logger the nil-config branch constructs (logger.go:103-107). -/
def defaultLogger : Logger :=
  ⟨⟨[.stdout], "DEBUG ", defaultFlag⟩, ⟨[.stdout], "INFO ", defaultFlag⟩,
    ⟨[.stdout], "WARN ", defaultFlag⟩, ⟨[.stdout], "ERROR ", defaultFlag⟩,
    ⟨[.stdout], "TRACE ", defaultFlag⟩⟩

/-- Trailing-newline check succeeds on anything with `nl` appended. -/
theorem hasTrailingNewline_append_nl (msg : String) :
    hasTrailingNewline (msg ++ nl) = true := by
  rcases msg with ⟨cs⟩
  have hd : (String.mk cs ++ nl).data = cs ++ [Char.ofNat 10] := rfl
  unfold hasTrailingNewline
  rw [hd, List.getLast?_concat]
  simp

/-- A concrete environment for the nil-config claims. -/
def envC9 : Env :=
  { getwd := .ok "/srv"
    now := ⟨2024, 1, 2, 3, 4, 5⟩
    callStack := []
    mkdirAllErr := fun _ => none
    openFileErr := fun _ => none
    world := ⟨"", [], []⟩ }

/-- C9 counterexample: with a nil config the line produced by the INFO
writer is `2024/01/02 03:04:05 main.go:7: INFO hi` — the level label comes
AFTER the short-file segment (`Lmsgprefix` moves the prefix behind the
header), so the writers do not use the order timestamp + level +
short-file: the actual line starts with timestamp then file:line, and no
line starts with timestamp followed by the level. -/
theorem C9_counterexample :
    NewLogger envC9 none = .ok (defaultLogger, envC9.world) ∧
      defaultLogger.INFO.println ⟨2024, 1, 2, 3, 4, 5⟩
          (some ⟨"/a/b/main.go", 7⟩) "hi" =
        "2024/01/02 03:04:05 main.go:7: INFO hi\n" ∧
      ("2024/01/02 03:04:05 main.go:7: INFO ".data).isPrefixOf
          ("2024/01/02 03:04:05 main.go:7: INFO hi\n".data) = true ∧
      ("2024/01/02 03:04:05 INFO".data).isPrefixOf
          ("2024/01/02 03:04:05 main.go:7: INFO hi\n".data) = false :=
  ⟨rfl, by decide, by decide, by decide⟩

/-- Timestamp header of Go's `log` package under `LstdFlags`. -/
def goLogHeaderDateTime (t : DateTimeVal) : String :=
  pad4 t.year ++ "/" ++ pad2 t.month ++ "/" ++ pad2 t.day ++ " " ++
    pad2 t.hour ++ ":" ++ pad2 t.minute ++ ":" ++ pad2 t.second ++ " "

/-- Lines of a default-flag writer: timestamp header, then short-file:line,
then the stored level prefix, then the message. -/
theorem println_defaultFlag (gl : GoLogger) (hfl : gl.flag = defaultFlag)
    (t : DateTimeVal) (fr : CallerFrame) (msg : String) :
    gl.println t (some fr) msg =
      goLogHeaderDateTime t ++
        (filepathBase fr.file ++ ":" ++ toString fr.line ++ ": ") ++
        (gl.pref ++ (msg ++ nl)) := by
  unfold GoLogger.println GoLogger.output
  rw [hfl, hasTrailingNewline_append_nl]
  simp +decide [defaultFlag, Lmsgprefix, Ldate, Ltime, Lmicroseconds,
    Lshortfile, Llongfile, LstdFlags, goLogHeaderDateTime, nil_append_str,
    String.append_assoc]

/-- C9 amended: for a nil config, the five severity writers all write, on
every line, the fixed default convention timestamp + short-file:line +
level label, in that order (the level label, not the level before the
file, as `Lmsgprefix` places the prefix after the header). -/
theorem C9_amended_default_convention (env : Env) (wd : String) (l : Logger)
    (w' : World) (h : env.getwd = .ok wd)
    (hL : NewLogger env none = .ok (l, w')) (t : DateTimeVal)
    (fr : CallerFrame) (msg : String) :
    l.DEBUG.println t (some fr) msg =
        goLogHeaderDateTime t ++
          (filepathBase fr.file ++ ":" ++ toString fr.line ++ ": ") ++
          ("DEBUG " ++ (msg ++ nl)) ∧
      l.INFO.println t (some fr) msg =
        goLogHeaderDateTime t ++
          (filepathBase fr.file ++ ":" ++ toString fr.line ++ ": ") ++
          ("INFO " ++ (msg ++ nl)) ∧
      l.WARN.println t (some fr) msg =
        goLogHeaderDateTime t ++
          (filepathBase fr.file ++ ":" ++ toString fr.line ++ ": ") ++
          ("WARN " ++ (msg ++ nl)) ∧
      l.ERROR.println t (some fr) msg =
        goLogHeaderDateTime t ++
          (filepathBase fr.file ++ ":" ++ toString fr.line ++ ": ") ++
          ("ERROR " ++ (msg ++ nl)) ∧
      l.TRACE.println t (some fr) msg =
        goLogHeaderDateTime t ++
          (filepathBase fr.file ++ ":" ++ toString fr.line ++ ": ") ++
          ("TRACE " ++ (msg ++ nl)) := by
  have hb : NewLogger env none = .ok (defaultLogger, env.world) := by
    simp only [NewLogger, h]
    rfl
  rw [hL] at hb
  injection hb with h1
  obtain ⟨hl, -⟩ := Prod.mk.inj h1
  subst hl
  exact ⟨println_defaultFlag _ rfl t fr msg, println_defaultFlag _ rfl t fr msg,
    println_defaultFlag _ rfl t fr msg, println_defaultFlag _ rfl t fr msg,
    println_defaultFlag _ rfl t fr msg⟩

/-- Witness for the amended C9 at a concrete environment, time, frame and
message. -/
theorem C9_amended_witness :
    envC9.getwd = .ok "/srv" ∧
      NewLogger envC9 none = .ok (defaultLogger, envC9.world) ∧
      defaultLogger.INFO.println ⟨2025, 12, 31, 23, 59, 6⟩
          (some ⟨"/a/b/main.go", 7⟩) "started" =
        goLogHeaderDateTime ⟨2025, 12, 31, 23, 59, 6⟩ ++
          (filepathBase "/a/b/main.go" ++ ":" ++ toString 7 ++ ": ") ++
          ("INFO " ++ ("started" ++ nl)) :=
  ⟨rfl, rfl,
    (C9_amended_default_convention envC9 "/srv" defaultLogger envC9.world rfl
      rfl ⟨2025, 12, 31, 23, 59, 6⟩ ⟨"/a/b/main.go", 7⟩ "started").2.1⟩

end LoggerPkg
